import Mathlib

/-!
Verification of the Decision Validation & Action Execution Pipeline of the
agentic-ai-autodealer repository.

The development embeds the relevant Python source shallowly:

* `PyVal` models dynamically typed Python/JSON values; the operations
  `pyDictGet`, `pyContains`, `pySubscript`, `pyLen`, `pyIterate` model the
  corresponding Python primitives, returning `Except` to model raised
  exceptions.
* `validate_decisions` embeds `BedrockAgentCore._validate_decisions`
  (src/agents/bedrock_agent.py, lines 139-164).
* `agent_decision_loop` embeds the error-handling skeleton of
  `BedrockAgentCore.agent_decision_loop` (lines 112-137); the outcome of the
  library call `json.loads(self._extract_json(response))` is supplied as a
  parameter.
* Typed records and the functions `execute_price_adjustments`,
  `execute_customer_responses`, `execute_social_media_posts`,
  `log_urgent_alerts`, `execute_all_actions`, `saveActionLog`,
  `get_action_history` embed `ActionExecutor` (src/agents/action_executor.py).
* `run_agent_cycle` embeds `AutonomousAgent.run_agent_cycle`
  (src/agents/autonomous_scheduler.py, lines 25-85).
-/

/-- A dynamically typed Python value (the subset produced by `json.loads`).
Dictionaries are association lists in insertion order, as in Python. -/
inductive PyVal where
  | none : PyVal
  | bool : Bool → PyVal
  | num : Rat → PyVal
  | str : String → PyVal
  | list : List PyVal → PyVal
  | dict : List (String × PyVal) → PyVal

/-- Lookup in a Python dict: first binding of the key wins. -/
def dictLookup (kvs : List (String × PyVal)) (k : String) : Option PyVal :=
  match kvs with
  | [] => Option.none
  | kv :: rest => if kv.1 == k then some kv.2 else dictLookup rest k

/-- `d[k] = v` on a Python dict: replace the binding in place, else append. -/
def dictSet (kvs : List (String × PyVal)) (k : String) (v : PyVal) :
    List (String × PyVal) :=
  match kvs with
  | [] => [(k, v)]
  | kv :: rest => if kv.1 == k then (k, v) :: rest else kv :: dictSet rest k v

/-- `v.get(k)` in Python: defined on dicts (absent key gives `None`); any
other receiver raises `AttributeError`. -/
def pyDictGet (v : PyVal) (k : String) : Except String PyVal :=
  match v with
  | .dict kvs => .ok ((dictLookup kvs k).getD .none)
  | _ => .error ("AttributeError: object has no attribute get")

/-- `k in v` in Python for a string `k`: key test on dicts, membership on
lists, substring test on strings; `TypeError` otherwise. -/
def pyContains (v : PyVal) (k : String) : Except String Bool :=
  match v with
  | .dict kvs => .ok (kvs.any (fun kv => kv.1 == k))
  | .list xs => .ok (xs.any (fun x => match x with | .str s => s == k | _ => false))
  | .str s => .ok ((s.splitOn k).length != 1)
  | _ => .error ("TypeError: argument is not iterable")

/-- `v[k]` in Python for a string key `k`: dict lookup (`KeyError` when
absent); `TypeError` on any other receiver. -/
def pySubscript (v : PyVal) (k : String) : Except String PyVal :=
  match v with
  | .dict kvs =>
    match dictLookup kvs k with
    | some w => .ok w
    | Option.none => .error ("KeyError")
  | _ => .error ("TypeError: indices must be integers")

/-- `len(v)` in Python: defined on lists, strings and dicts. -/
def pyLen (v : PyVal) : Except String Nat :=
  match v with
  | .list xs => .ok xs.length
  | .str s => .ok s.length
  | .dict kvs => .ok kvs.length
  | _ => .error ("TypeError: object has no len")

/-- `for x in v` in Python: lists yield elements, strings yield one-character
strings, dicts yield their keys; `TypeError` otherwise. -/
def pyIterate (v : PyVal) : Except String (List PyVal) :=
  match v with
  | .list xs => .ok xs
  | .str s => .ok (s.toList.map (fun c => PyVal.str (String.singleton c)))
  | .dict kvs => .ok (kvs.map (fun kv => PyVal.str kv.1))
  | _ => .error ("TypeError: object is not iterable")

/-- `x in valid_ids` where `valid_ids` is a set of strings: only a string
equal to a member is contained. -/
def pyMemStrSet (v : PyVal) (valid : List String) : Bool :=
  match v with
  | .str s => valid.contains s
  | _ => false

/-- Truthiness of a Python value (`if not response`, `if not decisions`). -/
def pyTruthy (v : PyVal) : Bool :=
  match v with
  | .none => false
  | .bool b => b
  | .num q => q != 0
  | .str s => s != ""
  | .list xs => !xs.isEmpty
  | .dict kvs => !kvs.isEmpty

/-- The list comprehension
`[adj for adj in items if adj.get(idKey) in valid]` from
`_validate_decisions`: keeps the items whose identifier is in the valid set;
a non-dict item makes `.get` raise. -/
def filterByKeyMem (items : List PyVal) (idKey : String) (valid : List String) :
    Except String (List PyVal) :=
  match items with
  | [] => .ok []
  | item :: rest =>
    match pyDictGet item idKey with
    | .error e => .error e
    | .ok v =>
      match filterByKeyMem rest idKey valid with
      | .error e => .error e
      | .ok kept => .ok (if pyMemStrSet v valid then item :: kept else kept)

/-- One guarded block of `_validate_decisions`
(`if key in decisions: ... decisions[key] = [filtered]`), including the
`len(decisions[key])` taken for the warning count. -/
def filterCategory (d : PyVal) (key : String) (valid : List String)
    (idKey : String) : Except String PyVal :=
  match pyContains d key with
  | .error e => .error e
  | .ok false => .ok d
  | .ok true =>
    match pySubscript d key with
    | .error e => .error e
    | .ok raw =>
      match pyLen raw with
      | .error e => .error e
      | .ok _ =>
        match pyIterate raw with
        | .error e => .error e
        | .ok items =>
          match filterByKeyMem items idKey valid with
          | .error e => .error e
          | .ok kept =>
            match d with
            | .dict kvs => .ok (.dict (dictSet kvs key (.list kept)))
            | _ => .error ("TypeError: object does not support item assignment")

/-- `BedrockAgentCore._validate_decisions` (bedrock_agent.py, 139-164):
filter `price_adjustments` against the valid VINs, then
`customer_responses` against the valid inquiry ids. -/
def validate_decisions (decisions : PyVal)
    (valid_vins valid_inquiry_ids : List String) : Except String PyVal :=
  match filterCategory decisions ("price_adjustments") valid_vins ("vin") with
  | .error e => .error e
  | .ok d1 => filterCategory d1 ("customer_responses") valid_inquiry_ids ("inquiry_id")

/-- Reading a key of the validated decision object (dicts only; `Option.none`
for anything else). Used to state what the validator output contains. -/
def pvGet (d : PyVal) (k : String) : Option PyVal :=
  match d with
  | .dict kvs => dictLookup kvs k
  | _ => Option.none

/-- The fallback branch `self._generate_fallback_decisions(...)` of
`agent_decision_loop`: the method `_generate_fallback_decisions` is called at
bedrock_agent.py lines 117, 133 and 137 but is not defined anywhere in the
repository, so evaluating the attribute raises `AttributeError`. -/
def generate_fallback_decisions : Except String PyVal :=
  .error ("AttributeError: BedrockAgentCore object has no attribute _generate_fallback_decisions")

/-- `BedrockAgentCore.agent_decision_loop` (bedrock_agent.py, 112-137),
error-handling skeleton.  `response` is the reasoning-service reply
(`Option.none` models Python `None`); `parsed` is the outcome of the library
call `json.loads(self._extract_json(response))`, supplied as a parameter.
The inner `except json.JSONDecodeError` substitutes the fallback; the outer
`except Exception` catches anything raised inside and substitutes the
fallback as well, so an exception raised by the fallback itself propagates
to the caller. -/
def agent_decision_loop (response : Option String) (parsed : Except String PyVal)
    (valid_vins valid_inquiry_ids : List String) : Except String PyVal :=
  let body : Except String PyVal :=
    match response with
    | Option.none => generate_fallback_decisions
    | some r =>
      if r = "" then generate_fallback_decisions
      else
        match parsed with
        | .error _ => generate_fallback_decisions
        | .ok decisions => validate_decisions decisions valid_vins valid_inquiry_ids
  match body with
  | .ok v => .ok v
  | .error _ => generate_fallback_decisions

example : validate_decisions
    (.dict [(("price_adjustments"), .list [.dict [(("vin"), .str ("V1"))],
                                           .dict [(("vin"), .str ("BAD"))]])])
    [("V1")] [] =
    .ok (.dict [(("price_adjustments"), .list [.dict [(("vin"), .str ("V1"))]])]) := rfl

example : validate_decisions
    (.dict [(("price_adjustments"), .list [.str ("oops")])]) [] [] =
    .error ("AttributeError: object has no attribute get") := rfl

/-- A row of `data/inventory.csv` as used by the executor.  Prices are exact
rationals (the CSV values are decimal numbers). -/
structure InvRecord where
  vin : String
  stock_number : String
  current_price : Rat
  cost : Rat
  days_in_inventory : Nat
  last_price_change : String
deriving DecidableEq, Repr

/-- A row of `data/customer_inquiries.csv` as used by the executor. -/
structure InqRecord where
  inquiry_id : String
  customer_email : String
  customer_name : String
  status : String
deriving DecidableEq, Repr

/-- A `price_adjustments` item of a decision set.  `Option.none` models an
absent key (so `item.get(k)` gives `None`). -/
structure PriceAdjItem where
  vin : Option String
  stock_number : Option String
  recommended_price : Option Rat
  reason : Option String
  confidence : Option Rat
  urgency : Option String
deriving DecidableEq, Repr

/-- A `customer_responses` item of a decision set. -/
structure CustRespItem where
  inquiry_id : Option String
  response_subject : Option String
  response_body : Option String
  offer_price : Option Rat
  strategy : Option String
deriving DecidableEq, Repr

/-- A `social_media_posts` item of a decision set. -/
structure SocialPostItem where
  platform : Option String
  content : Option String
  vehicle_vin : Option String
  hashtags : Option (List String)
deriving DecidableEq, Repr

/-- An `urgent_alerts` item of a decision set. -/
structure AlertItem where
  priority : Option String
  category : Option String
  message : Option String
  recommended_action : Option String
deriving DecidableEq, Repr

/-- A validated decision set as consumed by `execute_all_actions`;
`Option.none` for a category models the key being absent from the dict. -/
structure DecisionSet where
  price_adjustments : Option (List PriceAdjItem)
  customer_responses : Option (List CustRespItem)
  social_media_posts : Option (List SocialPostItem)
  urgent_alerts : Option (List AlertItem)
deriving DecidableEq, Repr

/-- The result dict built per price-adjustment item.  Fields that a given
code path leaves out of the dict are `Option.none`. -/
structure PAResult where
  action_type : Option String
  status : String
  vin : Option String
  stock_number : Option String
  old_price : Option Rat
  new_price : Option Rat
  adjustment_amount : Option Rat
  adjustment_percent : Option Rat
  reason : Option String
  confidence : Option Rat
  urgency : Option String
  execution_type : Option String
  error : Option String
  timestamp : String
deriving DecidableEq, Repr

/-- The email log dict built for a customer response (`_send_email` shape in
execute mode, the preview shape in dry-run mode).  `to_addr` models the dict
key `to`, which is a reserved word in Lean. -/
structure EmailLog where
  sent : Option Bool
  to_addr : String
  subject : Option String
  body_preview : Option String
  timestamp : Option String
  method : Option String
deriving DecidableEq, Repr

/-- The result dict built per customer-response item. -/
structure CRResult where
  action_type : Option String
  status : String
  inquiry_id : Option String
  customer_name : Option String
  customer_email : Option String
  subject : Option String
  offer_price : Option Rat
  strategy : Option String
  execution_type : Option String
  email_log : Option EmailLog
  error : Option String
  timestamp : String
deriving DecidableEq, Repr

/-- The result dict built per social-media-post item. -/
structure SMResult where
  action_type : Option String
  status : String
  platform : Option String
  content_preview : Option String
  vehicle_vin : Option String
  hashtags : Option (List String)
  execution_type : Option String
  error : Option String
  timestamp : String
deriving DecidableEq, Repr

/-- The result dict built per urgent-alert item. -/
structure UAResult where
  action_type : String
  status : String
  priority : Option String
  category : Option String
  message : Option String
  recommended_action : Option String
  timestamp : String
deriving DecidableEq, Repr

/-- Truthiness of an optional string field (`if not vin`). -/
def truthyStr (o : Option String) : Bool :=
  match o with
  | some s => s != ""
  | Option.none => false

/-- Truthiness of an optional numeric field (`if not new_price`). -/
def truthyRat (o : Option Rat) : Bool :=
  match o with
  | some q => q != 0
  | Option.none => false

/-- One iteration of the loop of `ActionExecutor.execute_price_adjustments`
(action_executor.py, 92-158), including its item-level `try/except`.
Returns the appended result and the inventory state after the iteration.
Under this typed embedding the only operation in the `try` block that can
raise is the division `(new_price - old_price) / old_price * 100`, which
raises `ZeroDivisionError` when the looked-up `current_price` is zero; note
the execute-mode write-back at lines 126-128 has already happened when that
division runs. -/
def priceAdjStep (dryRun : Bool) (now : String) (adj : PriceAdjItem)
    (inventory : List InvRecord) : PAResult × List InvRecord :=
  match adj.vin, adj.recommended_price with
  | some vin, some newPrice =>
    if vin = "" ∨ newPrice = 0 then
      ({ action_type := Option.none, status := ("failed"), vin := Option.none,
         stock_number := Option.none, old_price := Option.none,
         new_price := Option.none, adjustment_amount := Option.none,
         adjustment_percent := Option.none, reason := Option.none,
         confidence := Option.none, urgency := Option.none,
         execution_type := Option.none, error := some ("Missing VIN or price"),
         timestamp := now }, inventory)
    else
      match inventory.filter (fun r => r.vin == vin) with
      | [] =>
        ({ action_type := Option.none, status := ("failed"), vin := some vin,
           stock_number := Option.none, old_price := Option.none,
           new_price := Option.none, adjustment_amount := Option.none,
           adjustment_percent := Option.none, reason := Option.none,
           confidence := Option.none, urgency := Option.none,
           execution_type := Option.none, error := some ("Vehicle not found"),
           timestamp := now }, inventory)
      | vehicle :: _ =>
        let oldPrice := vehicle.current_price
        let inv2 :=
          if dryRun then inventory
          else inventory.map (fun r =>
            if r.vin == vin then
              { r with current_price := newPrice, last_price_change := now }
            else r)
        let atype := if dryRun then ("SIMULATED") else ("EXECUTED")
        if oldPrice = 0 then
          ({ action_type := Option.none, status := ("failed"), vin := some vin,
             stock_number := Option.none, old_price := Option.none,
             new_price := Option.none, adjustment_amount := Option.none,
             adjustment_percent := Option.none, reason := Option.none,
             confidence := Option.none, urgency := Option.none,
             execution_type := Option.none,
             error := some ("ZeroDivisionError: float division by zero"),
             timestamp := now }, inv2)
        else
          ({ action_type := some ("price_adjustment"), status := ("success"),
             vin := some vin, stock_number := adj.stock_number,
             old_price := some oldPrice, new_price := some newPrice,
             adjustment_amount := some (newPrice - oldPrice),
             adjustment_percent := some ((newPrice - oldPrice) / oldPrice * 100),
             reason := some (adj.reason.getD ("AI recommendation")),
             confidence := some (adj.confidence.getD (0.8 : Rat)),
             urgency := some (adj.urgency.getD ("medium")),
             execution_type := some atype, error := Option.none,
             timestamp := now }, inv2)
  | _, _ =>
    ({ action_type := Option.none, status := ("failed"), vin := Option.none,
       stock_number := Option.none, old_price := Option.none,
       new_price := Option.none, adjustment_amount := Option.none,
       adjustment_percent := Option.none, reason := Option.none,
       confidence := Option.none, urgency := Option.none,
       execution_type := Option.none, error := some ("Missing VIN or price"),
       timestamp := now }, inventory)

/-- `ActionExecutor.execute_price_adjustments` (action_executor.py, 85-162):
process the items in order, threading the inventory state. -/
def execute_price_adjustments (dryRun : Bool) (now : String)
    (adjustments : List PriceAdjItem) (inventory : List InvRecord) :
    List PAResult × List InvRecord :=
  match adjustments with
  | [] => ([], inventory)
  | adj :: rest =>
    let out := priceAdjStep dryRun now adj inventory
    let outRest := execute_price_adjustments dryRun now rest out.2
    (out.1 :: outRest.1, outRest.2)

/-- `ActionExecutor._send_email` (action_executor.py, 304-328): the demo
transport returns this acknowledgment record. -/
def sendEmail (to_addr : String) (subject : Option String) (now : String) : EmailLog :=
  { sent := some true, to_addr := to_addr, subject := subject,
    body_preview := Option.none, timestamp := some now,
    method := some ("demo_mode") }

/-- One iteration of the loop of `ActionExecutor.execute_customer_responses`
(action_executor.py, 169-233), including its item-level `try/except`.  Under
this typed embedding the only operation in the `try` block that can raise is
the dry-run preview `response.get(response_body)[:200]`, which raises
`TypeError` when the item has no `response_body`. -/
def custRespStep (dryRun : Bool) (now : String) (resp : CustRespItem)
    (inquiries : List InqRecord) : CRResult × List InqRecord :=
  match inquiries.filter (fun r => some r.inquiry_id == resp.inquiry_id) with
  | [] =>
    ({ action_type := Option.none, status := ("failed"),
       inquiry_id := resp.inquiry_id, customer_name := Option.none,
       customer_email := Option.none, subject := Option.none,
       offer_price := Option.none, strategy := Option.none,
       execution_type := Option.none, email_log := Option.none,
       error := some ("Inquiry not found"), timestamp := now }, inquiries)
  | inquiry :: _ =>
    if dryRun then
      match resp.response_body with
      | Option.none =>
        ({ action_type := Option.none, status := ("failed"),
           inquiry_id := resp.inquiry_id, customer_name := Option.none,
           customer_email := Option.none, subject := Option.none,
           offer_price := Option.none, strategy := Option.none,
           execution_type := Option.none, email_log := Option.none,
           error := some ("TypeError: NoneType object is not subscriptable"),
           timestamp := now }, inquiries)
      | some body =>
        ({ action_type := some ("customer_response"), status := ("success"),
           inquiry_id := resp.inquiry_id,
           customer_name := some inquiry.customer_name,
           customer_email := some inquiry.customer_email,
           subject := resp.response_subject, offer_price := resp.offer_price,
           strategy := resp.strategy, execution_type := some ("SIMULATED"),
           email_log := some
             { sent := Option.none, to_addr := inquiry.customer_email,
               subject := resp.response_subject,
               body_preview := some (body.take 200 ++ ("...")),
               timestamp := Option.none, method := Option.none },
           error := Option.none, timestamp := now }, inquiries)
    else
      let log := sendEmail inquiry.customer_email resp.response_subject now
      let updated := inquiries.map (fun r =>
        if some r.inquiry_id == resp.inquiry_id then
          { r with status := ("responded") }
        else r)
      ({ action_type := some ("customer_response"), status := ("success"),
         inquiry_id := resp.inquiry_id,
         customer_name := some inquiry.customer_name,
         customer_email := some inquiry.customer_email,
         subject := resp.response_subject, offer_price := resp.offer_price,
         strategy := resp.strategy, execution_type := some ("EXECUTED"),
         email_log := some log, error := Option.none, timestamp := now },
       updated)

/-- `ActionExecutor.execute_customer_responses` (action_executor.py,
164-235): process the items in order, threading the inquiries state. -/
def execute_customer_responses (dryRun : Bool) (now : String)
    (responses : List CustRespItem) (inquiries : List InqRecord) :
    List CRResult × List InqRecord :=
  match responses with
  | [] => ([], inquiries)
  | resp :: rest =>
    let out := custRespStep dryRun now resp inquiries
    let outRest := execute_customer_responses dryRun now rest out.2
    (out.1 :: outRest.1, outRest.2)

/-- One iteration of the loop of `ActionExecutor.execute_social_media_posts`
(action_executor.py, 242-277), including its item-level `try/except`.  Under
this typed embedding the only operation in the `try` block that can raise is
`len(content)` in the preview expression, which raises `TypeError` when the
item has no `content`. -/
def socialPostStep (dryRun : Bool) (now : String) (post : SocialPostItem) :
    SMResult :=
  match post.content with
  | Option.none =>
    { action_type := Option.none, status := ("failed"),
      platform := post.platform, content_preview := Option.none,
      vehicle_vin := Option.none, hashtags := Option.none,
      execution_type := Option.none,
      error := some ("TypeError: object of type NoneType has no len"),
      timestamp := now }
  | some content =>
    { action_type := some ("social_media_post"), status := ("success"),
      platform := post.platform,
      content_preview :=
        some (if content.length > 100 then content.take 100 ++ ("...") else content),
      vehicle_vin := post.vehicle_vin,
      hashtags := some (post.hashtags.getD []),
      execution_type := some (if dryRun then ("SIMULATED") else ("EXECUTED")),
      error := Option.none, timestamp := now }

/-- `ActionExecutor.execute_social_media_posts` (action_executor.py,
237-279): no shared mutable state, so the loop is a map. -/
def execute_social_media_posts (dryRun : Bool) (now : String)
    (posts : List SocialPostItem) : List SMResult :=
  posts.map (socialPostStep dryRun now)

/-- One iteration of `ActionExecutor.log_urgent_alerts` (action_executor.py,
286-301): every alert yields a `logged` result; there is no failure path. -/
def logUrgentAlert (now : String) (alert : AlertItem) : UAResult :=
  { action_type := ("urgent_alert"), status := ("logged"),
    priority := alert.priority, category := alert.category,
    message := alert.message, recommended_action := alert.recommended_action,
    timestamp := now }

/-- `ActionExecutor.log_urgent_alerts` (action_executor.py, 281-302). -/
def log_urgent_alerts (now : String) (alerts : List AlertItem) : List UAResult :=
  alerts.map (logUrgentAlert now)


/-- The cycle summary dict built by `ActionExecutor.execute_all_actions`
(action_executor.py, 28-83).  The four optional result lists model
`actions_by_type`, whose keys are present only when the corresponding
category key was present in the decision dict. -/
structure CycleSummary where
  timestamp : String
  total_actions : Nat
  successful_actions : Nat
  failed_actions : Nat
  price_adjustment_results : Option (List PAResult)
  customer_response_results : Option (List CRResult)
  social_media_results : Option (List SMResult)
  urgent_alert_results : Option (List UAResult)
deriving DecidableEq, Repr

/-- Length of an optional result list (0 when the category was absent). -/
def optLen (o : Option (List α)) : Nat :=
  match o with
  | some xs => xs.length
  | Option.none => 0

/-- `sum(1 for r in results if r[status] == success)` for price results. -/
def countSuccessPA (rs : List PAResult) : Nat :=
  rs.countP (fun r => r.status == ("success"))

/-- `sum(1 for r in results if r[status] == success)` for responses. -/
def countSuccessCR (rs : List CRResult) : Nat :=
  rs.countP (fun r => r.status == ("success"))

/-- `sum(1 for r in results if r[status] == success)` for social posts. -/
def countSuccessSM (rs : List SMResult) : Nat :=
  rs.countP (fun r => r.status == ("success"))

/-- Python list slice `logs[-n:]` for a nonnegative `n`: the last `n`
elements, except that `logs[-0:]` is `logs[0:]`, the whole list. -/
def pySliceLastN (n : Nat) (l : List α) : List α :=
  if n = 0 then l else l.drop (l.length - n)

/-- `ActionExecutor._save_action_log` (action_executor.py, 342-360): append
the new summary, keep only the last 100 entries (`logs = logs[-100:]`), and
persist.  The persisted file contents are the returned list. -/
def saveActionLog (log : List CycleSummary) (results : CycleSummary) :
    List CycleSummary :=
  pySliceLastN 100 (log ++ [results])

/-- `ActionExecutor.get_action_history` (action_executor.py, 362-370):
`file` is the parsed contents of `logs/agent_actions.json`, `Option.none`
when the file does not exist; the result is `logs[-limit:]`. -/
def get_action_history (file : Option (List CycleSummary)) (limit : Nat) :
    List CycleSummary :=
  match file with
  | some logs => pySliceLastN limit logs
  | Option.none => []

/-- The `if price_adjustments in decisions:` block of
`execute_all_actions`: run the category when its key is present
(`Option.none` models an absent key). -/
def paBlock (dryRun : Bool) (now : String) (o : Option (List PriceAdjItem))
    (inventory : List InvRecord) : Option (List PAResult) × List InvRecord :=
  match o with
  | some adjs =>
    (some (execute_price_adjustments dryRun now adjs inventory).1,
     (execute_price_adjustments dryRun now adjs inventory).2)
  | Option.none => (Option.none, inventory)

/-- The `if customer_responses in decisions:` block of
`execute_all_actions`. -/
def crBlock (dryRun : Bool) (now : String) (o : Option (List CustRespItem))
    (inquiries : List InqRecord) : Option (List CRResult) × List InqRecord :=
  match o with
  | some resps =>
    (some (execute_customer_responses dryRun now resps inquiries).1,
     (execute_customer_responses dryRun now resps inquiries).2)
  | Option.none => (Option.none, inquiries)

/-- `ActionExecutor.execute_all_actions` (action_executor.py, 28-83): run
the four categories in their fixed order, aggregate the counts, and append
the summary to the action log.  Returns the summary, the inventory and
inquiries states, and the persisted log. -/
def execute_all_actions (dryRun : Bool) (now : String) (decisions : DecisionSet)
    (inventory : List InvRecord) (inquiries : List InqRecord)
    (log : List CycleSummary) :
    CycleSummary × List InvRecord × List InqRecord × List CycleSummary :=
  let pa := paBlock dryRun now decisions.price_adjustments inventory
  let cr := crBlock dryRun now decisions.customer_responses inquiries
  let sm : Option (List SMResult) :=
    (decisions.social_media_posts).map (execute_social_media_posts dryRun now)
  let ua : Option (List UAResult) :=
    (decisions.urgent_alerts).map (log_urgent_alerts now)
  let total := optLen pa.1 + optLen cr.1 + optLen sm + optLen ua
  let succ := ((pa.1).map countSuccessPA).getD 0 + ((cr.1).map countSuccessCR).getD 0 +
    (sm.map countSuccessSM).getD 0 + (ua.map List.length).getD 0
  let summary : CycleSummary :=
    { timestamp := now, total_actions := total, successful_actions := succ,
      failed_actions := total - succ, price_adjustment_results := pa.1,
      customer_response_results := cr.1, social_media_results := sm,
      urgent_alert_results := ua }
  (summary, pa.2, cr.2, saveActionLog log summary)

/-- The mutable counters of `AutonomousAgent`
(autonomous_scheduler.py, 18-23). -/
structure SchedState where
  run_count : Nat
  last_run : Option String
deriving DecidableEq, Repr

/-- The environment of one scheduler cycle: the outcomes of the three
fallible collaborator calls made inside the `try` block of
`run_agent_cycle` (loading the CSV files, `agent_decision_loop`, and
`execute_all_actions`), plus the wall-clock timestamp.  Each outcome is an
`Except`, modelling that the call either returns or raises. -/
structure CycleEnv where
  now : String
  load_data : Except String (List InvRecord × List InqRecord)
  decide_decisions : List InvRecord × List InqRecord → Except String PyVal
  execute_actions : PyVal → List InvRecord × List InqRecord → Except String CycleSummary

/-- The `try` block of `AutonomousAgent.run_agent_cycle`
(autonomous_scheduler.py, 33-80): load data, obtain decisions, return early
when `not decisions`, check `analysis_summary in decisions` (which can
itself raise `TypeError` on a non-container), execute, and finally update
`run_count` and `last_run`. -/
def run_cycle_body (env : CycleEnv) (st : SchedState) : Except String SchedState :=
  match env.load_data with
  | .error e => .error e
  | .ok data =>
    match env.decide_decisions data with
    | .error e => .error e
    | .ok decisions =>
      if pyTruthy decisions then
        match pyContains decisions ("analysis_summary") with
        | .error e => .error e
        | .ok _ =>
          match env.execute_actions decisions data with
          | .error e => .error e
          | .ok _ => .ok { run_count := st.run_count + 1, last_run := some env.now }
      else
        .ok st

/-- `AutonomousAgent.run_agent_cycle` (autonomous_scheduler.py, 25-85): the
whole body is wrapped in `try/except Exception`; the handler prints the
traceback and does not re-raise, so the method always returns, leaving the
counters untouched when the body raised. -/
def run_agent_cycle (env : CycleEnv) (st : SchedState) : Except String SchedState :=
  match run_cycle_body env st with
  | .ok st2 => .ok st2
  | .error _ => .ok st

/-- An example cycle summary used in concrete witnesses. -/
def c3Summary (i : Nat) : CycleSummary :=
  { timestamp := toString i, total_actions := i, successful_actions := 0,
    failed_actions := 0, price_adjustment_results := Option.none,
    customer_response_results := Option.none,
    social_media_results := Option.none, urgent_alert_results := Option.none }

/-- A sequence of 101 distinct cycle summaries. -/
def c3Sequence : List CycleSummary := (List.range 101).map c3Summary

/-- A concrete raw decision object mixing valid and hallucinated
identifiers, used as a witness input for the validator. -/
def c1ExampleD : PyVal := PyVal.dict [
  (("price_adjustments"), .list [
    .dict [(("vin"), .str ("V1")), (("recommended_price"), .num 100)],
    .dict [(("vin"), .str ("BADVIN"))],
    .dict [(("reason"), .str ("x"))]]),
  (("customer_responses"), .list [
    .dict [(("inquiry_id"), .str ("I1"))],
    .dict [(("inquiry_id"), .str ("NOPE"))]]),
  (("social_media_posts"), .list []),
  (("urgent_alerts"), .list [.str ("alert")])]

/-- The validator output on `c1ExampleD` with valid sets `[V1]`, `[I1]`. -/
def c1ExampleOut : PyVal := PyVal.dict [
  (("price_adjustments"), .list [
    .dict [(("vin"), .str ("V1")), (("recommended_price"), .num 100)]]),
  (("customer_responses"), .list [
    .dict [(("inquiry_id"), .str ("I1"))]]),
  (("social_media_posts"), .list []),
  (("urgent_alerts"), .list [.str ("alert")])]

/-- A raw decision object whose `price_adjustments` list holds only
mappings (one of which lacks a `vin`), and which has no
`customer_responses` key.  Witness input for the amended validator claim. -/
def c7Kvs : List (String × PyVal) :=
  [(("price_adjustments"), PyVal.list
    [PyVal.dict [(("vin"), PyVal.str ("V1"))], PyVal.dict []])]

/-- The single price adjustment of the C5 scenario: VIN ABC123 to 18000. -/
def c5Adj : PriceAdjItem :=
  { vin := some ("ABC123"), stock_number := Option.none,
    recommended_price := some 18000, reason := Option.none,
    confidence := Option.none, urgency := Option.none }

/-- The decision set of the C5 scenario. -/
def c5Decisions : DecisionSet :=
  { price_adjustments := some [c5Adj], customer_responses := Option.none,
    social_media_posts := Option.none, urgent_alerts := Option.none }

/-- The action result the C5 scenario expects. -/
def c5Expected (now : String) : PAResult :=
  { action_type := some ("price_adjustment"), status := ("success"),
    vin := some ("ABC123"), stock_number := Option.none,
    old_price := some 20000, new_price := some 18000,
    adjustment_amount := some (-2000), adjustment_percent := some (-10),
    reason := some ("AI recommendation"), confidence := some (0.8 : Rat),
    urgency := some ("medium"), execution_type := some ("EXECUTED"),
    error := Option.none, timestamp := now }

/-- A concrete inventory row for VIN ABC123 at price 20000. -/
def c5RecA : InvRecord :=
  { vin := ("ABC123"), stock_number := ("S1"), current_price := 20000,
    cost := 15000, days_in_inventory := 70, last_price_change := ("t0") }

/-- A second, untargeted inventory row. -/
def c5RecB : InvRecord :=
  { vin := ("XYZ789"), stock_number := ("S2"), current_price := 31000,
    cost := 25000, days_in_inventory := 10, last_price_change := ("t0") }

/-- A concrete two-row inventory containing ABC123. -/
def c5Inv : List InvRecord := [c5RecA, c5RecB]

/-- A malformed price-adjustment item lacking its `vin`. -/
def c6Bad : PriceAdjItem :=
  { vin := Option.none, stock_number := Option.none,
    recommended_price := some 17000, reason := Option.none,
    confidence := Option.none, urgency := Option.none }

/-- A one-row inquiries table holding inquiry INQ1. -/
def c8Inq : InqRecord :=
  { inquiry_id := ("INQ1"), customer_email := ("ann@example.com"),
    customer_name := ("Ann"), status := ("new") }

/-- The inquiries table of the C8 counterexample. -/
def c8Table : List InqRecord := [c8Inq]

/-- A customer-response item that names an existing inquiry but carries no
`response_body`. -/
def c8Item : CustRespItem :=
  { inquiry_id := some ("INQ1"), response_subject := Option.none,
    response_body := Option.none, offer_price := Option.none,
    strategy := Option.none }

/-! ### Theorems -/

lemma pySliceLastN_length_le (n : Nat) (hn : n ≠ 0) (l : List α) :
    (pySliceLastN n l).length ≤ n := by
  unfold pySliceLastN
  rw [if_neg hn, List.length_drop]
  omega

lemma pySliceLastN_append_left (n : Nat) (hn : n ≠ 0) (xs ys : List α) :
    pySliceLastN n (pySliceLastN n xs ++ ys) = pySliceLastN n (xs ++ ys) := by
  unfold pySliceLastN
  rw [if_neg hn, if_neg hn, if_neg hn]
  rw [List.drop_append_eq_append_drop, List.drop_append_eq_append_drop,
    List.drop_drop, List.length_append, List.length_append, List.length_drop]
  congr 2
  · omega
  · omega

lemma pySliceLastN_append_big (n : Nat) (hn : n ≠ 0) (xs ys : List α)
    (h : n ≤ ys.length) :
    pySliceLastN n (xs ++ ys) = ys.drop (ys.length - n) := by
  unfold pySliceLastN
  rw [if_neg hn, List.drop_append_eq_append_drop, List.length_append]
  rw [List.drop_eq_nil_iff.mpr (by omega)]
  rw [List.nil_append]
  congr 1
  omega

lemma foldl_saveActionLog (ss : List CycleSummary) (init : List CycleSummary)
    (h : ss ≠ []) :
    ss.foldl saveActionLog init = pySliceLastN 100 (init ++ ss) := by
  induction ss generalizing init with
  | nil => exact absurd rfl h
  | cons s rest ih =>
    cases rest with
    | nil => simp [saveActionLog]
    | cons s2 rest2 =>
      rw [List.foldl_cons, ih (saveActionLog init s) (by simp)]
      show pySliceLastN 100 (pySliceLastN 100 (init ++ [s]) ++ (s2 :: rest2)) = _
      rw [pySliceLastN_append_left 100 (by omega)]
      simp

/-- C3: after appending N > 100 cycle summaries to any starting log, the
persisted action log is exactly the 100 most recently appended summaries in
append order, the earlier ones evicted. -/
theorem C3_bounded_log (init ss : List CycleSummary) (h : 100 < ss.length) :
    ss.foldl saveActionLog init = ss.drop (ss.length - 100) ∧
    (ss.foldl saveActionLog init).length = 100 := by
  have hne : ss ≠ [] := by
    intro h0
    rw [h0] at h
    simp at h
  rw [foldl_saveActionLog ss init hne,
    pySliceLastN_append_big 100 (by omega) init ss (by omega)]
  refine ⟨rfl, ?_⟩
  rw [List.length_drop]
  omega

theorem C3_bounded_log_witness :
    100 < c3Sequence.length ∧
    (c3Sequence.foldl saveActionLog [] = c3Sequence.drop (c3Sequence.length - 100) ∧
     (c3Sequence.foldl saveActionLog []).length = 100) :=
  ⟨by simp [c3Sequence], C3_bounded_log [] c3Sequence (by simp [c3Sequence])⟩

/-- C10 counterexample: with `limit = 0` and an existing one-entry log file,
`get_action_history` returns the whole log (Python `logs[-0:]` is the whole
list), which is more than `limit` entries — the claimed bound fails. -/
theorem C10_counterexample :
    get_action_history (some [c3Summary 0]) 0 = [c3Summary 0] ∧
    ¬ ((get_action_history (some [c3Summary 0]) 0).length ≤ 0) :=
  ⟨rfl, by decide⟩

/-- C10 amended: when the log file does not exist the history is empty; for
every limit of at least 1 the history is the last `limit` appended summaries
in append order, hence at most `limit` entries (for `limit = 0` the code
returns the entire log instead). -/
theorem C10_amended (limit : Nat) (logs : List CycleSummary) (h : 1 ≤ limit) :
    get_action_history Option.none limit = [] ∧
    get_action_history (some logs) limit = logs.drop (logs.length - limit) ∧
    (get_action_history (some logs) limit).length ≤ limit := by
  refine ⟨rfl, ?_, ?_⟩
  · show pySliceLastN limit logs = _
    unfold pySliceLastN
    rw [if_neg (by omega)]
  · exact pySliceLastN_length_le limit (by omega) logs

theorem C10_amended_witness :
    1 ≤ 2 ∧
    (get_action_history Option.none 2 = [] ∧
     get_action_history (some [c3Summary 0]) 2 =
       [c3Summary 0].drop ([c3Summary 0].length - 2) ∧
     (get_action_history (some [c3Summary 0]) 2).length ≤ 2) :=
  ⟨by decide, C10_amended 2 [c3Summary 0] (by decide)⟩

lemma dictSet_lookup_self (kvs : List (String × PyVal)) (k : String) (v : PyVal) :
    dictLookup (dictSet kvs k v) k = some v := by
  induction kvs with
  | nil => simp [dictSet, dictLookup]
  | cons kv rest ih =>
    by_cases h : kv.1 = k
    · simp [dictSet, dictLookup, h]
    · simp [dictSet, dictLookup, h, ih]

lemma dictSet_lookup_other (kvs : List (String × PyVal)) (k k2 : String)
    (v : PyVal) (h : k2 ≠ k) :
    dictLookup (dictSet kvs k v) k2 = dictLookup kvs k2 := by
  have h2 : ¬ (k = k2) := fun h3 => h h3.symm
  induction kvs with
  | nil => simp [dictSet, dictLookup, h2]
  | cons kv rest ih =>
    by_cases hk : kv.1 = k
    · simp [dictSet, dictLookup, hk, h2]
    · simp [dictSet, dictLookup, hk, ih]

lemma dictLookup_isSome_eq_any (kvs : List (String × PyVal)) (k : String) :
    (dictLookup kvs k).isSome = kvs.any (fun kv => kv.1 == k) := by
  induction kvs with
  | nil => simp [dictLookup]
  | cons kv rest ih =>
    by_cases h : kv.1 = k
    · simp [dictLookup, h]
    · simp [dictLookup, h, ih]

lemma filterByKeyMem_sound (items : List PyVal) (idKey : String)
    (valid : List String) (kept : List PyVal)
    (h : filterByKeyMem items idKey valid = .ok kept) :
    (∀ item ∈ kept, ∃ s, pyDictGet item idKey = .ok (.str s) ∧ s ∈ valid) ∧
    kept.length ≤ items.length := by
  induction items generalizing kept with
  | nil =>
    unfold filterByKeyMem at h
    cases h
    simp
  | cons item rest ih =>
    unfold filterByKeyMem at h
    cases hg : pyDictGet item idKey with
    | error e => rw [hg] at h; cases h
    | ok v =>
      rw [hg] at h
      cases hr : filterByKeyMem rest idKey valid with
      | error e => rw [hr] at h; cases h
      | ok kept2 =>
        rw [hr] at h
        simp only [] at h
        rcases ih kept2 hr with ⟨ihMem, ihLen⟩
        by_cases hm : pyMemStrSet v valid = true
        · rw [if_pos hm] at h
          cases h
          constructor
          · intro it hit
            rcases List.mem_cons.mp hit with heq | hmem
            · subst heq
              cases v with
              | str s =>
                refine ⟨s, hg, List.mem_of_elem_eq_true ?_⟩
                simpa [pyMemStrSet, List.contains] using hm
              | none => simp [pyMemStrSet] at hm
              | bool b => simp [pyMemStrSet] at hm
              | num q => simp [pyMemStrSet] at hm
              | list xs => simp [pyMemStrSet] at hm
              | dict kvs => simp [pyMemStrSet] at hm
            · exact ihMem it hmem
          · simpa using Nat.succ_le_succ ihLen
        · rw [if_neg hm] at h
          cases h
          exact ⟨ihMem, by simp; omega⟩

lemma filterByKeyMem_all_dict_ok (items : List PyVal) (idKey : String)
    (valid : List String)
    (h : ∀ item ∈ items, ∃ ikvs, item = .dict ikvs) :
    ∃ kept, filterByKeyMem items idKey valid = .ok kept := by
  induction items with
  | nil => exact ⟨[], rfl⟩
  | cons item rest ih =>
    rcases h item (by simp) with ⟨ikvs, hik⟩
    rcases ih (fun it hit => h it (by simp [hit])) with ⟨kept2, hk2⟩
    subst hik
    refine ⟨if pyMemStrSet ((dictLookup ikvs idKey).getD .none) valid
      then PyVal.dict ikvs :: kept2 else kept2, ?_⟩
    unfold filterByKeyMem
    rw [show pyDictGet (PyVal.dict ikvs) idKey =
      .ok ((dictLookup ikvs idKey).getD .none) from rfl, hk2]

lemma any_key_of_dictLookup_some (kvs : List (String × PyVal)) (k : String)
    (w : PyVal) (h : dictLookup kvs k = some w) :
    kvs.any (fun kv => kv.1 == k) = true := by
  have h2 := dictLookup_isSome_eq_any kvs k
  rw [h] at h2
  simpa using h2.symm

lemma any_key_of_dictLookup_none (kvs : List (String × PyVal)) (k : String)
    (h : dictLookup kvs k = Option.none) :
    kvs.any (fun kv => kv.1 == k) = false := by
  have h2 := dictLookup_isSome_eq_any kvs k
  rw [h] at h2
  simpa using h2.symm

lemma filterCategory_ok_cases (d : PyVal) (key : String) (valid : List String)
    (idKey : String) (d2 : PyVal)
    (h : filterCategory d key valid idKey = .ok d2) :
    (d2 = d ∧ pvGet d key = Option.none) ∨
    ∃ kvs raw items kept, d = .dict kvs ∧ dictLookup kvs key = some raw ∧
      pyIterate raw = .ok items ∧ filterByKeyMem items idKey valid = .ok kept ∧
      d2 = .dict (dictSet kvs key (.list kept)) := by
  cases d with
  | none => simp [filterCategory, pyContains] at h
  | bool b => simp [filterCategory, pyContains] at h
  | num q => simp [filterCategory, pyContains] at h
  | str s =>
    unfold filterCategory at h
    simp only [pyContains] at h
    cases hc : ((s.splitOn key).length != 1) with
    | false =>
      rw [hc] at h
      simp only [] at h
      cases h
      exact Or.inl ⟨rfl, rfl⟩
    | true =>
      rw [hc] at h
      simp only [pySubscript] at h
      simp at h
  | list xs =>
    unfold filterCategory at h
    simp only [pyContains] at h
    cases hc : (xs.any (fun x => match x with | .str s => s == key | _ => false)) with
    | false =>
      rw [hc] at h
      simp only [] at h
      cases h
      exact Or.inl ⟨rfl, rfl⟩
    | true =>
      rw [hc] at h
      simp only [pySubscript] at h
      simp at h
  | dict kvs =>
    unfold filterCategory at h
    simp only [pyContains] at h
    cases hl : dictLookup kvs key with
    | none =>
      rw [any_key_of_dictLookup_none kvs key hl] at h
      simp only [] at h
      cases h
      exact Or.inl ⟨rfl, by simp [pvGet, hl]⟩
    | some raw =>
      rw [any_key_of_dictLookup_some kvs key raw hl] at h
      simp only [pySubscript, hl] at h
      cases hlen : pyLen raw with
      | error e => rw [hlen] at h; simp at h
      | ok n =>
        rw [hlen] at h
        simp only [] at h
        cases hit : pyIterate raw with
        | error e => rw [hit] at h; simp at h
        | ok items =>
          rw [hit] at h
          simp only [] at h
          cases hf : filterByKeyMem items idKey valid with
          | error e => rw [hf] at h; simp at h
          | ok kept =>
            rw [hf] at h
            simp only [] at h
            cases h
            exact Or.inr ⟨kvs, raw, items, kept, rfl, hl, hit, hf, rfl⟩

lemma filterCategory_preserves_other (d : PyVal) (key : String)
    (valid : List String) (idKey : String) (d2 : PyVal) (k2 : String)
    (h : filterCategory d key valid idKey = .ok d2) (hne : k2 ≠ key) :
    pvGet d2 k2 = pvGet d k2 := by
  rcases filterCategory_ok_cases d key valid idKey d2 h with
    ⟨rfl, _⟩ | ⟨kvs, raw, items, kept, rfl, hl, hit, hf, rfl⟩
  · rfl
  · simp [pvGet, dictSet_lookup_other kvs key k2 _ hne]

lemma filterCategory_key_prop (d : PyVal) (key : String) (valid : List String)
    (idKey : String) (d2 : PyVal)
    (h : filterCategory d key valid idKey = .ok d2) :
    ∀ ys, pvGet d2 key = some (.list ys) →
      ((∀ item ∈ ys, ∃ s, pyDictGet item idKey = .ok (.str s) ∧ s ∈ valid) ∧
       ∀ xs, pvGet d key = some (.list xs) → ys.length ≤ xs.length) := by
  intro ys hys
  rcases filterCategory_ok_cases d key valid idKey d2 h with
    ⟨rfl, hnone⟩ | ⟨kvs, raw, items, kept, rfl, hl, hit, hf, rfl⟩
  · rw [hnone] at hys
    cases hys
  · rw [show pvGet (.dict (dictSet kvs key (.list kept))) key = some (.list kept)
      from by simp [pvGet, dictSet_lookup_self]] at hys
    injection hys with h1
    injection h1 with h2
    subst h2
    rcases filterByKeyMem_sound items idKey valid kept hf with ⟨hmem, hlen⟩
    refine ⟨hmem, ?_⟩
    intro xs hxs
    rw [show pvGet (PyVal.dict kvs) key = dictLookup kvs key from rfl, hl] at hxs
    injection hxs with h3
    subst h3
    rw [show pyIterate (PyVal.list xs) = .ok xs from rfl] at hit
    injection hit with h4
    rw [h4]
    exact hlen

/-- C1: whenever `_validate_decisions` returns, every surviving
`price_adjustments` item carries a `vin` belonging to the valid VIN set and
every surviving `customer_responses` item carries an `inquiry_id` belonging
to the valid inquiry-id set; each validated list is no longer than the
original list under the same key; and the `social_media_posts` and
`urgent_alerts` entries of the decision object are passed through
unchanged. -/
theorem C1_validator_filtering (d : PyVal) (vins iids : List String)
    (d2 : PyVal) (h : validate_decisions d vins iids = .ok d2) :
    (∀ ys, pvGet d2 ("price_adjustments") = some (.list ys) →
      (∀ item ∈ ys, ∃ s, pyDictGet item ("vin") = .ok (.str s) ∧ s ∈ vins) ∧
      ∀ xs, pvGet d ("price_adjustments") = some (.list xs) →
        ys.length ≤ xs.length) ∧
    (∀ ys, pvGet d2 ("customer_responses") = some (.list ys) →
      (∀ item ∈ ys, ∃ s, pyDictGet item ("inquiry_id") = .ok (.str s) ∧ s ∈ iids) ∧
      ∀ xs, pvGet d ("customer_responses") = some (.list xs) →
        ys.length ≤ xs.length) ∧
    pvGet d2 ("social_media_posts") = pvGet d ("social_media_posts") ∧
    pvGet d2 ("urgent_alerts") = pvGet d ("urgent_alerts") := by
  unfold validate_decisions at h
  cases h1 : filterCategory d ("price_adjustments") vins ("vin") with
  | error e => rw [h1] at h; cases h
  | ok d1 =>
    rw [h1] at h
    simp only [] at h
    refine ⟨?_, ?_, ?_, ?_⟩
    · intro ys hys
      rw [filterCategory_preserves_other d1 ("customer_responses") iids
        ("inquiry_id") d2 ("price_adjustments") h (by decide)] at hys
      exact filterCategory_key_prop d ("price_adjustments") vins ("vin") d1 h1 ys hys
    · intro ys hys
      rcases filterCategory_key_prop d1 ("customer_responses") iids
        ("inquiry_id") d2 h ys hys with ⟨hmem, hlen⟩
      refine ⟨hmem, ?_⟩
      intro xs hxs
      refine hlen xs ?_
      rw [filterCategory_preserves_other d ("price_adjustments") vins ("vin")
        d1 ("customer_responses") h1 (by decide)]
      exact hxs
    · rw [filterCategory_preserves_other d1 ("customer_responses") iids
        ("inquiry_id") d2 ("social_media_posts") h (by decide),
        filterCategory_preserves_other d ("price_adjustments") vins ("vin")
        d1 ("social_media_posts") h1 (by decide)]
    · rw [filterCategory_preserves_other d1 ("customer_responses") iids
        ("inquiry_id") d2 ("urgent_alerts") h (by decide),
        filterCategory_preserves_other d ("price_adjustments") vins ("vin")
        d1 ("urgent_alerts") h1 (by decide)]

theorem C1_validator_filtering_witness :
    validate_decisions c1ExampleD [("V1")] [("I1")] = .ok c1ExampleOut ∧
    ((∀ ys, pvGet c1ExampleOut ("price_adjustments") = some (.list ys) →
      (∀ item ∈ ys, ∃ s, pyDictGet item ("vin") = .ok (.str s) ∧ s ∈ [("V1")]) ∧
      ∀ xs, pvGet c1ExampleD ("price_adjustments") = some (.list xs) →
        ys.length ≤ xs.length) ∧
    (∀ ys, pvGet c1ExampleOut ("customer_responses") = some (.list ys) →
      (∀ item ∈ ys, ∃ s, pyDictGet item ("inquiry_id") = .ok (.str s) ∧ s ∈ [("I1")]) ∧
      ∀ xs, pvGet c1ExampleD ("customer_responses") = some (.list xs) →
        ys.length ≤ xs.length) ∧
    pvGet c1ExampleOut ("social_media_posts") = pvGet c1ExampleD ("social_media_posts") ∧
    pvGet c1ExampleOut ("urgent_alerts") = pvGet c1ExampleD ("urgent_alerts")) :=
  ⟨rfl, C1_validator_filtering c1ExampleD [("V1")] [("I1")] c1ExampleOut rfl⟩

lemma filterCategory_good_ok (kvs : List (String × PyVal)) (key : String)
    (valid : List String) (idKey : String)
    (hgood : ∀ v, dictLookup kvs key = some v → ∃ xs, v = .list xs ∧
      ∀ item ∈ xs, ∃ ikvs, item = .dict ikvs) :
    ∃ d1, filterCategory (.dict kvs) key valid idKey = .ok d1 := by
  cases hl : dictLookup kvs key with
  | none =>
    refine ⟨.dict kvs, ?_⟩
    unfold filterCategory
    simp only [pyContains]
    rw [any_key_of_dictLookup_none kvs key hl]
  | some raw =>
    rcases hgood raw hl with ⟨xs, rfl, hitems⟩
    rcases filterByKeyMem_all_dict_ok xs idKey valid hitems with ⟨kept, hk⟩
    refine ⟨.dict (dictSet kvs key (.list kept)), ?_⟩
    unfold filterCategory
    simp only [pyContains]
    rw [any_key_of_dictLookup_some kvs key _ hl]
    simp only [pySubscript, hl, pyLen, pyIterate, hk]

/-- C7 counterexample: on a decision set whose `price_adjustments` list
contains an item that is not a mapping (here the string `oops`),
`_validate_decisions` raises `AttributeError` at `adj.get(vin)` instead of
dropping the item, so the validator does not tolerate every input. -/
theorem C7_counterexample :
    validate_decisions
      (.dict [(("price_adjustments"), .list [.str ("oops")])]) [] [] =
      .error ("AttributeError: object has no attribute get") := rfl

/-- C7 amended: the Decision Validator never raises provided the decision
set is a mapping and every item of the present filtered categories is
itself a mapping; an absent category key yields an output with that
category still absent (hence empty), and items lacking the identifier field
never survive into the output. -/
theorem C7_amended_validator_no_raise (kvs : List (String × PyVal))
    (vins iids : List String)
    (hpa : ∀ v, dictLookup kvs ("price_adjustments") = some v →
      ∃ xs, v = .list xs ∧ ∀ item ∈ xs, ∃ ikvs, item = .dict ikvs)
    (hcr : ∀ v, dictLookup kvs ("customer_responses") = some v →
      ∃ xs, v = .list xs ∧ ∀ item ∈ xs, ∃ ikvs, item = .dict ikvs) :
    ∃ d2, validate_decisions (.dict kvs) vins iids = .ok d2 ∧
      (dictLookup kvs ("price_adjustments") = Option.none →
        pvGet d2 ("price_adjustments") = Option.none) ∧
      (dictLookup kvs ("customer_responses") = Option.none →
        pvGet d2 ("customer_responses") = Option.none) ∧
      (∀ ys, pvGet d2 ("price_adjustments") = some (.list ys) →
        ∀ item ∈ ys, pyDictGet item ("vin") ≠ .ok PyVal.none) ∧
      (∀ ys, pvGet d2 ("customer_responses") = some (.list ys) →
        ∀ item ∈ ys, pyDictGet item ("inquiry_id") ≠ .ok PyVal.none) := by
  rcases filterCategory_good_ok kvs ("price_adjustments") vins ("vin") hpa
    with ⟨d1, h1⟩
  obtain ⟨kvs1, rfl⟩ : ∃ kvs1, d1 = .dict kvs1 := by
    rcases filterCategory_ok_cases (.dict kvs) ("price_adjustments") vins
      ("vin") d1 h1 with ⟨rfl, _⟩ | ⟨kvs0, raw, items, kept, heq, _, _, _, rfl⟩
    · exact ⟨kvs, rfl⟩
    · exact ⟨dictSet kvs0 ("price_adjustments") (.list kept), rfl⟩
  have hcrPreserved : dictLookup kvs1 ("customer_responses") =
      dictLookup kvs ("customer_responses") :=
    filterCategory_preserves_other (.dict kvs) ("price_adjustments") vins
      ("vin") (.dict kvs1) ("customer_responses") h1 (by decide)
  rcases filterCategory_good_ok kvs1 ("customer_responses") iids
    ("inquiry_id") (by rw [hcrPreserved]; exact hcr) with ⟨d2, h2⟩
  refine ⟨d2, ?_, ?_, ?_, ?_, ?_⟩
  · unfold validate_decisions
    rw [h1]
    exact h2
  · intro hnone
    rw [filterCategory_preserves_other (.dict kvs1) ("customer_responses")
      iids ("inquiry_id") d2 ("price_adjustments") h2 (by decide)]
    rcases filterCategory_ok_cases (.dict kvs) ("price_adjustments") vins
      ("vin") (.dict kvs1) h1 with ⟨heq, hn⟩ | ⟨kvs0, raw, _, _, heq, hl, _, _, _⟩
    · rw [heq]
      exact hn
    · injection heq with h3
      subst h3
      rw [hl] at hnone
      cases hnone
  · intro hnone
    rw [← hcrPreserved] at hnone
    rcases filterCategory_ok_cases (.dict kvs1) ("customer_responses") iids
      ("inquiry_id") d2 h2 with ⟨rfl, hn⟩ | ⟨kvs0, raw, _, _, heq, hl, _, _, _⟩
    · exact hn
    · injection heq with h3
      subst h3
      rw [hl] at hnone
      cases hnone
  · intro ys hys
    rw [filterCategory_preserves_other (.dict kvs1) ("customer_responses")
      iids ("inquiry_id") d2 ("price_adjustments") h2 (by decide)] at hys
    rcases filterCategory_key_prop (.dict kvs) ("price_adjustments") vins
      ("vin") (.dict kvs1) h1 ys hys with ⟨hmem, _⟩
    intro item hit hcon
    rcases hmem item hit with ⟨s, hs, _⟩
    rw [hs] at hcon
    injection hcon with h3
    exact PyVal.noConfusion h3
  · intro ys hys
    rcases filterCategory_key_prop (.dict kvs1) ("customer_responses") iids
      ("inquiry_id") d2 h2 ys hys with ⟨hmem, _⟩
    intro item hit hcon
    rcases hmem item hit with ⟨s, hs, _⟩
    rw [hs] at hcon
    injection hcon with h3
    exact PyVal.noConfusion h3

theorem C7_amended_witness :
    (∀ v, dictLookup c7Kvs ("price_adjustments") = some v →
      ∃ xs, v = .list xs ∧ ∀ item ∈ xs, ∃ ikvs, item = PyVal.dict ikvs) ∧
    (∀ v, dictLookup c7Kvs ("customer_responses") = some v →
      ∃ xs, v = .list xs ∧ ∀ item ∈ xs, ∃ ikvs, item = PyVal.dict ikvs) ∧
    (∃ d2, validate_decisions (.dict c7Kvs) [("V1")] [] = .ok d2 ∧
      (dictLookup c7Kvs ("price_adjustments") = Option.none →
        pvGet d2 ("price_adjustments") = Option.none) ∧
      (dictLookup c7Kvs ("customer_responses") = Option.none →
        pvGet d2 ("customer_responses") = Option.none) ∧
      (∀ ys, pvGet d2 ("price_adjustments") = some (.list ys) →
        ∀ item ∈ ys, pyDictGet item ("vin") ≠ .ok PyVal.none) ∧
      (∀ ys, pvGet d2 ("customer_responses") = some (.list ys) →
        ∀ item ∈ ys, pyDictGet item ("inquiry_id") ≠ .ok PyVal.none)) := by
  have hpa : ∀ v, dictLookup c7Kvs ("price_adjustments") = some v →
      ∃ xs, v = .list xs ∧ ∀ item ∈ xs, ∃ ikvs, item = PyVal.dict ikvs := by
    intro v hv
    rw [show dictLookup c7Kvs ("price_adjustments") = some (PyVal.list
      [PyVal.dict [(("vin"), PyVal.str ("V1"))], PyVal.dict []]) from rfl] at hv
    injection hv with h1
    subst h1
    refine ⟨_, rfl, ?_⟩
    intro item hit
    rcases List.mem_cons.mp hit with rfl | hit2
    · exact ⟨_, rfl⟩
    · rcases List.mem_cons.mp hit2 with rfl | hit3
      · exact ⟨_, rfl⟩
      · cases hit3
  have hcr : ∀ v, dictLookup c7Kvs ("customer_responses") = some v →
      ∃ xs, v = .list xs ∧ ∀ item ∈ xs, ∃ ikvs, item = PyVal.dict ikvs := by
    intro v hv
    rw [show dictLookup c7Kvs ("customer_responses") = Option.none from rfl] at hv
    cases hv
  exact ⟨hpa, hcr, C7_amended_validator_no_raise c7Kvs [("V1")] [] hpa hcr⟩

/-- C2 (code bug): for an unparsable reasoning response — and likewise for a
`None` response — `agent_decision_loop` does not return a fallback decision
set: every fallback path calls the undefined method
`_generate_fallback_decisions`, and the resulting `AttributeError` also
escapes the outer `except Exception` handler because that handler calls the
same undefined method again, so the exception reaches the caller. -/
theorem C2_missing_fallback :
    agent_decision_loop (some ("this is not json"))
      (.error ("JSONDecodeError: Expecting value: line 1 column 1")) [] [] =
      .error ("AttributeError: BedrockAgentCore object has no attribute _generate_fallback_decisions") ∧
    agent_decision_loop Option.none (.ok (PyVal.dict [])) [] [] =
      .error ("AttributeError: BedrockAgentCore object has no attribute _generate_fallback_decisions") :=
  ⟨rfl, rfl⟩

lemma priceAdjStep_dry_state (now : String) (adj : PriceAdjItem)
    (inv : List InvRecord) : (priceAdjStep true now adj inv).2 = inv := by
  unfold priceAdjStep
  repeat' (first | split | dsimp only [])
  all_goals (first | rfl | simp_all)

lemma priceAdjStep_status_indep (dryRun : Bool) (t1 t2 : String)
    (adj : PriceAdjItem) (inv : List InvRecord) :
    (priceAdjStep dryRun t1 adj inv).1.status =
    (priceAdjStep dryRun t2 adj inv).1.status := by
  unfold priceAdjStep
  repeat' (first | split | dsimp only [])

lemma execute_price_adjustments_length (dryRun : Bool) (now : String)
    (adjs : List PriceAdjItem) (inv : List InvRecord) :
    ((execute_price_adjustments dryRun now adjs inv).1).length = adjs.length := by
  induction adjs generalizing inv with
  | nil => rfl
  | cons adj rest ih =>
    simp only [execute_price_adjustments, List.length_cons]
    rw [ih]

lemma execute_price_adjustments_dry_state (now : String)
    (adjs : List PriceAdjItem) (inv : List InvRecord) :
    (execute_price_adjustments true now adjs inv).2 = inv := by
  induction adjs generalizing inv with
  | nil => rfl
  | cons adj rest ih =>
    simp only [execute_price_adjustments]
    rw [priceAdjStep_dry_state now adj inv]
    exact ih inv

lemma execute_price_adjustments_dry_status (t1 t2 : String)
    (adjs : List PriceAdjItem) (inv : List InvRecord) :
    ((execute_price_adjustments true t1 adjs inv).1).map (fun r => r.status) =
    ((execute_price_adjustments true t2 adjs inv).1).map (fun r => r.status) := by
  induction adjs generalizing inv with
  | nil => rfl
  | cons adj rest ih =>
    simp only [execute_price_adjustments, List.map_cons]
    rw [priceAdjStep_dry_state t1 adj inv, priceAdjStep_dry_state t2 adj inv,
      priceAdjStep_status_indep true t1 t2 adj inv, ih inv]

lemma custRespStep_dry_state (now : String) (resp : CustRespItem)
    (inqs : List InqRecord) : (custRespStep true now resp inqs).2 = inqs := by
  unfold custRespStep
  repeat' (first | split | dsimp only [])
  all_goals (first | rfl | simp_all)

lemma custRespStep_status_indep (dryRun : Bool) (t1 t2 : String)
    (resp : CustRespItem) (inqs : List InqRecord) :
    (custRespStep dryRun t1 resp inqs).1.status =
    (custRespStep dryRun t2 resp inqs).1.status := by
  unfold custRespStep
  repeat' (first | split | dsimp only [])

lemma execute_customer_responses_length (dryRun : Bool) (now : String)
    (resps : List CustRespItem) (inqs : List InqRecord) :
    ((execute_customer_responses dryRun now resps inqs).1).length = resps.length := by
  induction resps generalizing inqs with
  | nil => rfl
  | cons resp rest ih =>
    simp only [execute_customer_responses, List.length_cons]
    rw [ih]

lemma execute_customer_responses_dry_state (now : String)
    (resps : List CustRespItem) (inqs : List InqRecord) :
    (execute_customer_responses true now resps inqs).2 = inqs := by
  induction resps generalizing inqs with
  | nil => rfl
  | cons resp rest ih =>
    simp only [execute_customer_responses]
    rw [custRespStep_dry_state now resp inqs]
    exact ih inqs

lemma execute_customer_responses_dry_status (t1 t2 : String)
    (resps : List CustRespItem) (inqs : List InqRecord) :
    ((execute_customer_responses true t1 resps inqs).1).map (fun r => r.status) =
    ((execute_customer_responses true t2 resps inqs).1).map (fun r => r.status) := by
  induction resps generalizing inqs with
  | nil => rfl
  | cons resp rest ih =>
    simp only [execute_customer_responses, List.map_cons]
    rw [custRespStep_dry_state t1 resp inqs, custRespStep_dry_state t2 resp inqs,
      custRespStep_status_indep true t1 t2 resp inqs, ih inqs]

lemma socialPostStep_status_indep (dryRun : Bool) (t1 t2 : String)
    (post : SocialPostItem) :
    (socialPostStep dryRun t1 post).status = (socialPostStep dryRun t2 post).status := by
  unfold socialPostStep
  repeat' (first | split | dsimp only [])

lemma execute_social_media_posts_status (dryRun : Bool) (t1 t2 : String)
    (posts : List SocialPostItem) :
    ((execute_social_media_posts dryRun t1 posts)).map (fun r => r.status) =
    ((execute_social_media_posts dryRun t2 posts)).map (fun r => r.status) := by
  induction posts with
  | nil => rfl
  | cons post rest ih =>
    simp only [execute_social_media_posts, List.map_cons] at ih ⊢
    rw [socialPostStep_status_indep dryRun t1 t2 post, ih]

lemma countSuccessPA_eq_of_status_eq (l1 l2 : List PAResult)
    (h : l1.map (fun r => r.status) = l2.map (fun r => r.status)) :
    countSuccessPA l1 = countSuccessPA l2 := by
  unfold countSuccessPA
  have h2 := congrArg (List.countP (fun s => s == ("success"))) h
  simpa [List.countP_map, Function.comp] using h2

lemma countSuccessCR_eq_of_status_eq (l1 l2 : List CRResult)
    (h : l1.map (fun r => r.status) = l2.map (fun r => r.status)) :
    countSuccessCR l1 = countSuccessCR l2 := by
  unfold countSuccessCR
  have h2 := congrArg (List.countP (fun s => s == ("success"))) h
  simpa [List.countP_map, Function.comp] using h2

lemma countSuccessSM_eq_of_status_eq (l1 l2 : List SMResult)
    (h : l1.map (fun r => r.status) = l2.map (fun r => r.status)) :
    countSuccessSM l1 = countSuccessSM l2 := by
  unfold countSuccessSM
  have h2 := congrArg (List.countP (fun s => s == ("success"))) h
  simpa [List.countP_map, Function.comp] using h2

lemma countSuccessPA_dry_t (t1 t2 : String) (adjs : List PriceAdjItem)
    (inv : List InvRecord) :
    countSuccessPA ((execute_price_adjustments true t1 adjs inv).1) =
    countSuccessPA ((execute_price_adjustments true t2 adjs inv).1) :=
  countSuccessPA_eq_of_status_eq _ _ (execute_price_adjustments_dry_status t1 t2 adjs inv)

lemma countSuccessCR_dry_t (t1 t2 : String) (resps : List CustRespItem)
    (inqs : List InqRecord) :
    countSuccessCR ((execute_customer_responses true t1 resps inqs).1) =
    countSuccessCR ((execute_customer_responses true t2 resps inqs).1) :=
  countSuccessCR_eq_of_status_eq _ _ (execute_customer_responses_dry_status t1 t2 resps inqs)

lemma countSuccessSM_t (dryRun : Bool) (t1 t2 : String)
    (posts : List SocialPostItem) :
    countSuccessSM (execute_social_media_posts dryRun t1 posts) =
    countSuccessSM (execute_social_media_posts dryRun t2 posts) :=
  countSuccessSM_eq_of_status_eq _ _ (execute_social_media_posts_status dryRun t1 t2 posts)

lemma paBlock_dry_state (now : String) (o : Option (List PriceAdjItem))
    (inv : List InvRecord) : (paBlock true now o inv).2 = inv := by
  cases o with
  | none => rfl
  | some adjs => simpa [paBlock] using execute_price_adjustments_dry_state now adjs inv

lemma crBlock_dry_state (now : String) (o : Option (List CustRespItem))
    (inqs : List InqRecord) : (crBlock true now o inqs).2 = inqs := by
  cases o with
  | none => rfl
  | some resps => simpa [crBlock] using execute_customer_responses_dry_state now resps inqs

lemma paBlock_dry_len (t1 t2 : String) (o : Option (List PriceAdjItem))
    (inv : List InvRecord) :
    optLen (paBlock true t1 o inv).1 = optLen (paBlock true t2 o inv).1 := by
  cases o with
  | none => rfl
  | some adjs =>
    simp [paBlock, optLen, execute_price_adjustments_length]

lemma crBlock_dry_len (t1 t2 : String) (o : Option (List CustRespItem))
    (inqs : List InqRecord) :
    optLen (crBlock true t1 o inqs).1 = optLen (crBlock true t2 o inqs).1 := by
  cases o with
  | none => rfl
  | some resps =>
    simp [crBlock, optLen, execute_customer_responses_length]

lemma smBlock_len (dryRun : Bool) (t1 t2 : String)
    (o : Option (List SocialPostItem)) :
    optLen (o.map (execute_social_media_posts dryRun t1)) =
    optLen (o.map (execute_social_media_posts dryRun t2)) := by
  cases o with
  | none => rfl
  | some posts => simp [optLen, execute_social_media_posts]

lemma uaBlock_len (t1 t2 : String) (o : Option (List AlertItem)) :
    optLen (o.map (log_urgent_alerts t1)) =
    optLen (o.map (log_urgent_alerts t2)) := by
  cases o with
  | none => rfl
  | some alerts => simp [optLen, log_urgent_alerts]

lemma paBlock_dry_succ (t1 t2 : String) (o : Option (List PriceAdjItem))
    (inv : List InvRecord) :
    (((paBlock true t1 o inv).1).map countSuccessPA).getD 0 =
    (((paBlock true t2 o inv).1).map countSuccessPA).getD 0 := by
  cases o with
  | none => rfl
  | some adjs => simpa [paBlock] using countSuccessPA_dry_t t1 t2 adjs inv

lemma crBlock_dry_succ (t1 t2 : String) (o : Option (List CustRespItem))
    (inqs : List InqRecord) :
    (((crBlock true t1 o inqs).1).map countSuccessCR).getD 0 =
    (((crBlock true t2 o inqs).1).map countSuccessCR).getD 0 := by
  cases o with
  | none => rfl
  | some resps => simpa [crBlock] using countSuccessCR_dry_t t1 t2 resps inqs

lemma smBlock_succ (dryRun : Bool) (t1 t2 : String)
    (o : Option (List SocialPostItem)) :
    ((o.map (execute_social_media_posts dryRun t1)).map countSuccessSM).getD 0 =
    ((o.map (execute_social_media_posts dryRun t2)).map countSuccessSM).getD 0 := by
  cases o with
  | none => rfl
  | some posts => simpa using countSuccessSM_t dryRun t1 t2 posts

lemma uaBlock_succ (t1 t2 : String) (o : Option (List AlertItem)) :
    ((o.map (log_urgent_alerts t1)).map List.length).getD 0 =
    ((o.map (log_urgent_alerts t2)).map List.length).getD 0 := by
  cases o with
  | none => rfl
  | some alerts => simp [log_urgent_alerts]

/-- C4: running the Executor in simulate (dry-run) mode leaves the Inventory
and Inquiries records unchanged, and two simulate runs on the same decision
set and records (at different wall-clock timestamps) produce cycle summaries
with identical `total_actions` and `successful_actions`. -/
theorem C4_simulate_frame (d : DecisionSet) (inv : List InvRecord)
    (inq : List InqRecord) (log : List CycleSummary) (t1 t2 : String) :
    (execute_all_actions true t1 d inv inq log).2.1 = inv ∧
    (execute_all_actions true t1 d inv inq log).2.2.1 = inq ∧
    (execute_all_actions true t1 d inv inq log).1.total_actions =
      (execute_all_actions true t2 d inv inq log).1.total_actions ∧
    (execute_all_actions true t1 d inv inq log).1.successful_actions =
      (execute_all_actions true t2 d inv inq log).1.successful_actions := by
  refine ⟨?_, ?_, ?_, ?_⟩
  · simp only [execute_all_actions]
    exact paBlock_dry_state t1 d.price_adjustments inv
  · simp only [execute_all_actions]
    exact crBlock_dry_state t1 d.customer_responses inq
  · simp only [execute_all_actions]
    rw [paBlock_dry_len t1 t2 d.price_adjustments inv,
      crBlock_dry_len t1 t2 d.customer_responses inq,
      smBlock_len true t1 t2 d.social_media_posts,
      uaBlock_len t1 t2 d.urgent_alerts]
  · simp only [execute_all_actions]
    rw [paBlock_dry_succ t1 t2 d.price_adjustments inv,
      crBlock_dry_succ t1 t2 d.customer_responses inq,
      smBlock_succ true t1 t2 d.social_media_posts,
      uaBlock_succ t1 t2 d.urgent_alerts]

/-- C5: with VIN ABC123 in inventory at current price 20000 and a decision
set holding the single adjustment to 18000, execute mode yields exactly one
success result with old price 20000, new price 18000, adjustment amount
-2000 and adjustment percent -10; afterwards every ABC123 row has current
price 18000 and its last price change set to the cycle timestamp, and every
other row is unchanged. -/
theorem C5_execute_scenario (inv : List InvRecord) (inq : List InqRecord)
    (log : List CycleSummary) (now : String) (rec : InvRecord)
    (rest : List InvRecord)
    (hfind : inv.filter (fun r => r.vin == ("ABC123")) = rec :: rest)
    (hprice : rec.current_price = 20000) :
    (execute_all_actions false now c5Decisions inv inq log).1.price_adjustment_results =
      some [c5Expected now] ∧
    (execute_all_actions false now c5Decisions inv inq log).2.1 =
      inv.map (fun r => if r.vin == ("ABC123") then
        { r with current_price := 18000, last_price_change := now } else r) ∧
    (∀ r ∈ (execute_all_actions false now c5Decisions inv inq log).2.1,
      r.vin = ("ABC123") → r.current_price = 18000 ∧ r.last_price_change = now) ∧
    (∀ r ∈ inv, r.vin ≠ ("ABC123") →
      r ∈ (execute_all_actions false now c5Decisions inv inq log).2.1) := by
  have hstep : priceAdjStep false now c5Adj inv =
      (c5Expected now, inv.map (fun r => if r.vin == ("ABC123") then
        { r with current_price := 18000, last_price_change := now } else r)) := by
    unfold priceAdjStep c5Adj
    simp only []
    rw [if_neg (by decide)]
    rw [hfind]
    simp only [hprice]
    rw [if_neg (by norm_num)]
    unfold c5Expected
    norm_num
  have hexec : execute_price_adjustments false now [c5Adj] inv =
      ([c5Expected now], inv.map (fun r => if r.vin == ("ABC123") then
        { r with current_price := 18000, last_price_change := now } else r)) := by
    simp only [execute_price_adjustments, hstep]
  refine ⟨?_, ?_, ?_, ?_⟩
  · simp only [execute_all_actions, c5Decisions, paBlock, hexec]
  · simp only [execute_all_actions, c5Decisions, paBlock, hexec]
  · simp only [execute_all_actions, c5Decisions, paBlock, hexec]
    intro r hr hvin
    rcases List.mem_map.mp hr with ⟨r0, hr0, rfl⟩
    by_cases h0 : r0.vin == ("ABC123")
    · rw [if_pos h0]
      exact ⟨rfl, rfl⟩
    · rw [if_neg h0] at hvin ⊢
      exact absurd hvin (by simpa using h0)
  · simp only [execute_all_actions, c5Decisions, paBlock, hexec]
    intro r hr hne
    have h0 : (r.vin == ("ABC123")) = false := by
      simpa using hne
    have h2 := List.mem_map_of_mem (fun r => if r.vin == ("ABC123") then
      { r with current_price := 18000, last_price_change := now } else r) hr
    simp only [] at h2
    rw [h0] at h2
    simpa using h2

theorem C5_execute_scenario_witness :
    c5Inv.filter (fun r => r.vin == ("ABC123")) = c5RecA :: [] ∧
    c5RecA.current_price = 20000 ∧
    ((execute_all_actions false ("T1") c5Decisions c5Inv [] []).1.price_adjustment_results =
      some [c5Expected ("T1")] ∧
    (execute_all_actions false ("T1") c5Decisions c5Inv [] []).2.1 =
      c5Inv.map (fun r => if r.vin == ("ABC123") then
        { r with current_price := 18000, last_price_change := ("T1") } else r) ∧
    (∀ r ∈ (execute_all_actions false ("T1") c5Decisions c5Inv [] []).2.1,
      r.vin = ("ABC123") → r.current_price = 18000 ∧ r.last_price_change = ("T1")) ∧
    (∀ r ∈ c5Inv, r.vin ≠ ("ABC123") →
      r ∈ (execute_all_actions false ("T1") c5Decisions c5Inv [] []).2.1)) :=
  ⟨rfl, rfl, C5_execute_scenario c5Inv [] [] ("T1") c5RecA [] rfl rfl⟩

/-- C6: a price-adjustment batch holding one item that lacks a `vin`
alongside one fully valid item yields exactly two results — the first
`failed` with reason `Missing VIN or price`, the second `success` — and no
exception escapes; in general the batch always produces exactly one result
per item, in both modes, because each per-item exception is converted into
a `failed` result and the loop continues. -/
theorem C6_no_batch_abort (dryRun : Bool) (now : String) (inv : List InvRecord)
    (bad good : PriceAdjItem) (v : String) (p : Rat) (rec : InvRecord)
    (rest : List InvRecord)
    (hbad : bad.vin = Option.none)
    (hgv : good.vin = some v) (hv : v ≠ (""))
    (hgp : good.recommended_price = some p) (hp : p ≠ 0)
    (hfind : inv.filter (fun r => r.vin == v) = rec :: rest)
    (hold : rec.current_price ≠ 0) :
    (∃ r1 r2, (execute_price_adjustments dryRun now [bad, good] inv).1 = [r1, r2] ∧
      r1.status = ("failed") ∧ r1.error = some ("Missing VIN or price") ∧
      r2.status = ("success")) ∧
    (∀ (items : List PriceAdjItem) (inventory : List InvRecord),
      ((execute_price_adjustments dryRun now items inventory).1).length = items.length) := by
  constructor
  · have h1 : priceAdjStep dryRun now bad inv =
        ({ action_type := Option.none, status := ("failed"), vin := Option.none,
           stock_number := Option.none, old_price := Option.none,
           new_price := Option.none, adjustment_amount := Option.none,
           adjustment_percent := Option.none, reason := Option.none,
           confidence := Option.none, urgency := Option.none,
           execution_type := Option.none, error := some ("Missing VIN or price"),
           timestamp := now }, inv) := by
      unfold priceAdjStep
      rw [hbad]
    have h2 : (priceAdjStep dryRun now good inv).1.status = ("success") := by
      unfold priceAdjStep
      rw [hgv, hgp]
      simp only []
      rw [if_neg (not_or.mpr ⟨hv, hp⟩), hfind]
      dsimp only []
      rw [if_neg hold]
    refine ⟨(priceAdjStep dryRun now bad inv).1,
      (priceAdjStep dryRun now good inv).1, ?_, ?_, ?_, h2⟩
    · simp only [execute_price_adjustments, h1]
    · rw [h1]
    · rw [h1]
  · intro items inventory
    exact execute_price_adjustments_length dryRun now items inventory

theorem C6_no_batch_abort_witness :
    c6Bad.vin = Option.none ∧ c5Adj.vin = some ("ABC123") ∧
    ("ABC123") ≠ ("") ∧ c5Adj.recommended_price = some 18000 ∧
    (18000 : Rat) ≠ 0 ∧
    c5Inv.filter (fun r => r.vin == ("ABC123")) = c5RecA :: [] ∧
    c5RecA.current_price ≠ 0 ∧
    ((∃ r1 r2,
      (execute_price_adjustments true ("T2") [c6Bad, c5Adj] c5Inv).1 = [r1, r2] ∧
      r1.status = ("failed") ∧ r1.error = some ("Missing VIN or price") ∧
      r2.status = ("success")) ∧
    (∀ (items : List PriceAdjItem) (inventory : List InvRecord),
      ((execute_price_adjustments true ("T2") items inventory).1).length = items.length)) :=
  ⟨rfl, rfl, by decide, rfl, by decide, rfl, by decide,
   C6_no_batch_abort true ("T2") c5Inv c6Bad c5Adj ("ABC123") 18000 c5RecA []
     rfl rfl (by decide) rfl (by decide) rfl (by decide)⟩

/-- C8 counterexample: in simulate mode, a customer-response item whose
inquiry lookup succeeds but which has no `response_body` produces a `failed`
result (from the `TypeError` raised by `response.get(response_body)[:200]`),
not a `success`, so "success whenever the lookup succeeds" fails as
stated. -/
theorem C8_counterexample :
    c8Table.filter (fun r => some r.inquiry_id == c8Item.inquiry_id) ≠ [] ∧
    (custRespStep true ("T3") c8Item c8Table).1.status = ("failed") ∧
    (custRespStep true ("T3") c8Item c8Table).1.error ≠ some ("Inquiry not found") :=
  ⟨by decide, rfl, by decide⟩

/-- C8 amended: a customer-response result is `failed` with error
`Inquiry not found` exactly when the inquiry id is absent from the Inquiries
table, in which case the table is unchanged; and whenever the lookup
succeeds the result is `success`, in execute mode unconditionally and in
simulate mode provided the item carries a `response_body`. -/
theorem C8_amended (dryRun : Bool) (now : String) (resp : CustRespItem)
    (inquiries : List InqRecord) :
    ((custRespStep dryRun now resp inquiries).1.status = ("failed") ∧
      (custRespStep dryRun now resp inquiries).1.error = some ("Inquiry not found") ↔
      inquiries.filter (fun r => some r.inquiry_id == resp.inquiry_id) = []) ∧
    (inquiries.filter (fun r => some r.inquiry_id == resp.inquiry_id) = [] →
      (custRespStep dryRun now resp inquiries).2 = inquiries) ∧
    (inquiries.filter (fun r => some r.inquiry_id == resp.inquiry_id) ≠ [] →
      (dryRun = false ∨ resp.response_body ≠ Option.none) →
      (custRespStep dryRun now resp inquiries).1.status = ("success")) := by
  cases hfilter : inquiries.filter (fun r => some r.inquiry_id == resp.inquiry_id) with
  | nil =>
    unfold custRespStep
    rw [hfilter]
    exact ⟨⟨fun _ => rfl, fun _ => ⟨rfl, rfl⟩⟩, fun _ => rfl,
      fun hne _ => absurd rfl hne⟩
  | cons inquiry tail =>
    unfold custRespStep
    rw [hfilter]
    cases dryRun with
    | false =>
      refine ⟨⟨fun hcon => absurd hcon.1
          (show (("success") : String) = ("failed") → False by decide),
        fun hcon => absurd hcon (by simp)⟩,
        fun hcon => absurd hcon (by simp), fun _ _ => rfl⟩
    | true =>
      cases hbody : resp.response_body with
      | none =>
        refine ⟨⟨fun hcon => absurd hcon.2
            (show (some ("TypeError: NoneType object is not subscriptable") : Option String) =
              some ("Inquiry not found") → False by decide),
          fun hcon => absurd hcon (by simp)⟩,
          fun hcon => absurd hcon (by simp), fun _ hopt => ?_⟩
        rcases hopt with h | h
        · exact absurd h (by decide)
        · exact absurd rfl h
      | some body =>
        refine ⟨⟨fun hcon => absurd hcon.1
            (show (("success") : String) = ("failed") → False by decide),
          fun hcon => absurd hcon (by simp)⟩,
          fun hcon => absurd hcon (by simp), fun _ _ => rfl⟩

theorem C8_amended_witness :
    ((custRespStep false ("T4") c8Item c8Table).1.status = ("failed") ∧
      (custRespStep false ("T4") c8Item c8Table).1.error = some ("Inquiry not found") ↔
      c8Table.filter (fun r => some r.inquiry_id == c8Item.inquiry_id) = []) ∧
    (c8Table.filter (fun r => some r.inquiry_id == c8Item.inquiry_id) = [] →
      (custRespStep false ("T4") c8Item c8Table).2 = c8Table) ∧
    (c8Table.filter (fun r => some r.inquiry_id == c8Item.inquiry_id) ≠ [] →
      (false = false ∨ c8Item.response_body ≠ Option.none) →
      (custRespStep false ("T4") c8Item c8Table).1.status = ("success")) :=
  C8_amended false ("T4") c8Item c8Table

/-- C9: a single scheduler cycle never raises to its caller — the
`try/except Exception` boundary absorbs every exception raised while
loading data, deciding, or executing — and the `run_count` and `last_run`
counters change only when the cycle body completed without an exception, in
which case `run_count` grows by exactly one and `last_run` is set to the
cycle timestamp; on any exception the state is returned untouched. -/
theorem C9_cycle_boundary (env : CycleEnv) (st : SchedState) :
    ∃ st2, run_agent_cycle env st = .ok st2 ∧
      (st2 = st ∨ (run_cycle_body env st = .ok st2 ∧
        st2.run_count = st.run_count + 1 ∧ st2.last_run = some env.now)) := by
  cases hb : run_cycle_body env st with
  | error e =>
    refine ⟨st, ?_, Or.inl rfl⟩
    unfold run_agent_cycle
    rw [hb]
  | ok st2 =>
    refine ⟨st2, ?_, ?_⟩
    · unfold run_agent_cycle
      rw [hb]
    · unfold run_cycle_body at hb
      cases hl : env.load_data with
      | error e => rw [hl] at hb; cases hb
      | ok data =>
        rw [hl] at hb
        simp only [] at hb
        cases hd : env.decide_decisions data with
        | error e => rw [hd] at hb; cases hb
        | ok decisions =>
          rw [hd] at hb
          simp only [] at hb
          by_cases ht : pyTruthy decisions = true
          · rw [if_pos ht] at hb
            cases hc : pyContains decisions ("analysis_summary") with
            | error e => rw [hc] at hb; cases hb
            | ok b =>
              rw [hc] at hb
              simp only [] at hb
              cases he : env.execute_actions decisions data with
              | error e => rw [he] at hb; cases hb
              | ok summary =>
                rw [he] at hb
                simp only [] at hb
                cases hb
                exact Or.inr ⟨rfl, rfl, rfl⟩
          · rw [if_neg ht] at hb
            cases hb
            exact Or.inl rfl
